import Mathlib

/-!
# The `aggregate` command: admission and validation

A shallow embedding of `src/mongo/db/commands/pipeline_command.cpp`.

* C++ exceptions raised by `uassert` / `uassertStatusOK` are the `.error` side of
  `Except Status _`; a value that is returned normally is the `.ok` side.
* Out-parameters (`BSONObjBuilder&`) are threaded explicitly: a function that may write
  to the builder returns the builder it leaves behind.
* Calls to the two external collaborators that matter for the contract
  (`checkAuthForAggregate`, `runAggregate`) are recorded in a trace, so that
  "is never invoked" and "is invoked exactly once with these arguments" can be stated.
* Everything the translation unit only includes (`commands.h`, `run_aggregate.h`,
  `pipeline.h`, `authorization_session.h`) is a field of `Collaborators`.
-/

namespace mongo

/-! ## Data model -/

/-- Values a BSON element can hold, as far as a command document needs them. -/
inductive BSONValue where
  | str (s : String)
  | num (n : Int)
  | obj (fields : List (String × BSONValue))
  | arr (items : List BSONValue)

/-- One element of a document: a field name and its value. -/
structure BSONElement where
  fieldName : String
  value : BSONValue

/-- A document: the ordered sequence of its elements. -/
structure BSONObj where
  elements : List BSONElement

/-- The document an embedded-object value stands for. -/
def BSONObj.ofFields (fields : List (String × BSONValue)) : BSONObj :=
  ⟨fields.map fun f => ⟨f.1, f.2⟩⟩

/-- Modelled from the spec: `BSONObj::hasField` belongs to the BSON library, which is
not among the sources; §4.1 reads it as "the document contains a field named `name`",
a test on the document's own (top-level) field names. -/
def BSONObj.hasField (o : BSONObj) (name : String) : Bool :=
  o.elements.any fun e => e.fieldName == name

/-- Modelled from the spec: `BSONObj::isEmpty` belongs to the BSON library, which is
not among the sources; §3 reads an empty collation as a document without elements. -/
def BSONObj.isEmpty (o : BSONObj) : Bool :=
  o.elements.isEmpty

/-- An output builder is the document built so far. -/
abbrev BSONObjBuilder := BSONObj

namespace ErrorCodes

/-- Numeric error codes. -/
abbrev Error := Nat

/-- The code of a successful status. -/
abbrev OK : Error := 0

/-- The code raised by the collation guard. -/
abbrev InvalidOptions : Error := 72

end ErrorCodes

/-- A status: an error code and a reason. -/
structure Status where
  code : ErrorCodes.Error
  reason : String
  deriving DecidableEq, Repr

/-- The successful status. -/
def Status.OK : Status := ⟨ErrorCodes.OK, ""⟩

/-- A status is OK when its code is `ErrorCodes::OK`. -/
def Status.isOK (s : Status) : Bool :=
  s.code == ErrorCodes.OK

/-- `StatusWith<T>`: a value, or the status explaining why there is none. -/
abbrev StatusWith (α : Type) := Except Status α

/-- `uassertStatusOK(sw)`: the value, or an exception carrying the status. -/
def uassertStatusOK {α : Type} (sw : StatusWith α) : Except Status α :=
  match sw with
  | .ok v => .ok v
  | .error s => .error s

/-- `uassert(code, msg, cond)`: an exception with `code` and `msg` unless `cond`. -/
def uassert (code : ErrorCodes.Error) (msg : String) (cond : Bool) : Except Status Unit :=
  if cond then .ok () else .error ⟨code, msg⟩

/-- A database name and a collection name. -/
structure NamespaceString where
  db : String
  coll : String
  deriving DecidableEq, Repr

/-- `ExplainOptions::Verbosity`. -/
inductive Verbosity where
  | kQueryPlanner
  | kExecStats
  | kExecAllPlans
  deriving DecidableEq, Repr

/-- `ServerGlobalParams::FeatureCompatibility::Version`. -/
inductive Version where
  | k32
  | k34
  deriving DecidableEq, Repr

/-- `ServerGlobalParams::FeatureCompatibility`. -/
structure FeatureCompatibility where
  version : Version

/-- The part of `serverGlobalParams` that the command reads. -/
structure ServerGlobalParams where
  featureCompatibility : FeatureCompatibility

/-- `ReadWriteType` of a command. -/
inductive ReadWriteType where
  | kCommand
  | kWrite
  | kRead
  deriving DecidableEq, Repr

/-- The parsed request; only `getPipeline` and `getCollation` are read by the command,
the remaining fields travel to the executor untouched. -/
structure AggregationRequest where
  nss : NamespaceString
  getPipeline : List BSONObj
  getCollation : BSONObj
  explain : Option Verbosity
  options : BSONObj

/-- The client on whose behalf a command runs. -/
structure Client where
  user : String

/-- The operation context handed through to the executor. -/
structure OperationContext where
  client : Client
  opId : Nat

/-- A call made to an external collaborator, with the arguments it received. -/
inductive Event where
  | checkAuthForAggregate (client : Client) (nss : NamespaceString) (cmdObj : BSONObj)
  | runAggregate (opCtx : OperationContext) (nss : NamespaceString)
      (request : AggregationRequest) (cmdObj : BSONObj)

/-- Whether an event is a call of the executor. -/
def Event.isRunAggregate : Event → Bool
  | .runAggregate _ _ _ _ => true
  | .checkAuthForAggregate _ _ _ => false

/-- How a call ended (`.ok v`: returned `v`; `.error s`: threw with status `s`) and
which collaborator calls it made, in order. -/
structure Traced (α : Type) where
  outcome : Except Status α
  trace : List Event

/-- The functions of other translation units that the command calls. -/
structure Collaborators where
  /-- `Command::parseNsCollectionRequired`: the namespace, or an exception. -/
  parseNsCollectionRequired : String → BSONObj → Except Status NamespaceString
  /-- `AggregationRequest::parseFromBSON`. -/
  parseFromBSON : NamespaceString → BSONObj → Option Verbosity → StatusWith AggregationRequest
  /-- `AuthorizationSession::get(client)->checkAuthForAggregate`. -/
  checkAuthForAggregate : Client → NamespaceString → BSONObj → Status
  /-- `runAggregate`: the status it returns or the exception it throws, and the builder
  it leaves behind. -/
  runAggregate : OperationContext → NamespaceString → AggregationRequest → BSONObj →
    BSONObjBuilder → Except Status Status × BSONObjBuilder
  /-- `Pipeline::aggSupportsWriteConcern`. -/
  aggSupportsWriteConcern : BSONObj → Bool
  /-- What `Command::appendCommandStatus` writes into the result builder. -/
  appendStatusFields : BSONObjBuilder → Status → BSONObjBuilder

/-- Modelled from the spec: `Command::appendCommandStatus(result, status)` is declared in
`mongo/db/commands.h`, which is not among the sources. By §4.4 and §6 it records the
status in the result builder and yields the command-level success flag, which is
whether the status is OK. -/
def appendCommandStatus (env : Collaborators) (result : BSONObjBuilder) (status : Status) :
    Bool × BSONObjBuilder :=
  (status.isOK, env.appendStatusFields result status)

/-! ## The command (`pipeline_command.cpp`) -/

/-- Lines 41-46. -/
def isMergePipeline (pipeline : List BSONObj) : Bool :=
  match pipeline with
  | [] => false
  | first :: _ => first.hasField "$mergeCursors"

/-- The message of the collation guard, lines 118-119. -/
def collationMessage : String :=
  "The featureCompatibilityVersion must be 3.4 to use collation. See " ++
    "http://dochub.mongodb.org/core/3.4-feature-compatibility."

/-- The `uassert` of lines 117-123, the collation guard of `_runAggCommand`. -/
def collationGuard (serverGlobalParams : ServerGlobalParams)
    (aggregationRequest : AggregationRequest) : Except Status Unit :=
  uassert ErrorCodes.InvalidOptions collationMessage
    (aggregationRequest.getCollation.isEmpty ||
      serverGlobalParams.featureCompatibility.version != Version.k32 ||
      isMergePipeline aggregationRequest.getPipeline)

/-- Lines 102-126. Returns how the call ended, the executor calls made, and the builder. -/
def _runAggCommand (env : Collaborators) (serverGlobalParams : ServerGlobalParams)
    (opCtx : OperationContext) (dbname : String) (cmdObj : BSONObj)
    (verbosity : Option Verbosity) (result : BSONObjBuilder) :
    Traced Status × BSONObjBuilder :=
  match env.parseNsCollectionRequired dbname cmdObj with
  | .error ex => (⟨.error ex, []⟩, result)
  | .ok nss =>
    match uassertStatusOK (env.parseFromBSON nss cmdObj verbosity) with
    | .error ex => (⟨.error ex, []⟩, result)
    | .ok aggregationRequest =>
      match collationGuard serverGlobalParams aggregationRequest with
      | .error ex => (⟨.error ex, []⟩, result)
      | .ok _ =>
        let r := env.runAggregate opCtx nss aggregationRequest cmdObj result
        (⟨r.1, [Event.runAggregate opCtx nss aggregationRequest cmdObj]⟩, r.2)

/-- Lines 84-91. The `errmsg` out-parameter is never assigned. -/
def run (env : Collaborators) (serverGlobalParams : ServerGlobalParams)
    (opCtx : OperationContext) (dbname : String) (cmdObj : BSONObj) (_errmsg : String)
    (result : BSONObjBuilder) : Traced Bool × BSONObjBuilder :=
  let r := _runAggCommand env serverGlobalParams opCtx dbname cmdObj none result
  match r.1.outcome with
  | .error ex => (⟨.error ex, r.1.trace⟩, r.2)
  | .ok status =>
    let a := appendCommandStatus env r.2 status
    (⟨.ok a.1, r.1.trace⟩, a.2)

/-- Lines 93-99. -/
def explain (env : Collaborators) (serverGlobalParams : ServerGlobalParams)
    (opCtx : OperationContext) (dbname : String) (cmdObj : BSONObj)
    (verbosity : Verbosity) (out : BSONObjBuilder) : Traced Status × BSONObjBuilder :=
  _runAggCommand env serverGlobalParams opCtx dbname cmdObj (some verbosity) out

/-- Lines 77-82. -/
def checkAuthForCommand (env : Collaborators) (client : Client) (dbname : String)
    (cmdObj : BSONObj) : Traced Status :=
  match env.parseNsCollectionRequired dbname cmdObj with
  | .error ex => ⟨.error ex, []⟩
  | .ok nss =>
    ⟨.ok (env.checkAuthForAggregate client nss cmdObj),
      [Event.checkAuthForAggregate client nss cmdObj]⟩

/-- Lines 57-59. -/
def supportsWriteConcern (env : Collaborators) (cmd : BSONObj) : Bool :=
  env.aggSupportsWriteConcern cmd

/-- Lines 61-63. -/
def slaveOk : Bool := false

/-- Lines 65-67. -/
def slaveOverrideOk : Bool := true

/-- Lines 69-71. -/
def supportsReadConcern : Bool := true

/-- Lines 73-75. -/
def getReadWriteType : ReadWriteType := ReadWriteType.kRead

/-! ## A concrete server

One instantiation of the collaborators, small enough to evaluate by hand, on which the
results below are exercised. -/

namespace Sample

/-- The first element names the collection and must be a non-empty string. -/
def parseNsCollectionRequired (dbname : String) (cmdObj : BSONObj) :
    Except Status NamespaceString :=
  match cmdObj.elements with
  | ⟨_, .str coll⟩ :: _ =>
    if coll.isEmpty then .error ⟨73, "Invalid namespace specified"⟩ else .ok ⟨dbname, coll⟩
  | _ => .error ⟨2, "collection name has invalid type"⟩

/-- The value of the first element called `name`. -/
def getField (o : BSONObj) (name : String) : Option BSONValue :=
  (o.elements.find? fun e => e.fieldName == name).map fun e => e.value

/-- The stage documents of a pipeline array, when every item is a document. -/
def stages : List BSONValue → Option (List BSONObj)
  | [] => some []
  | .obj fields :: rest => (stages rest).map fun tl => BSONObj.ofFields fields :: tl
  | _ :: _ => none

/-- The request needs a `pipeline` array of documents; `collation`, when present, must be
a document. -/
def parseFromBSON (nss : NamespaceString) (cmdObj : BSONObj) (verbosity : Option Verbosity) :
    StatusWith AggregationRequest :=
  match getField cmdObj "pipeline" with
  | some (.arr items) =>
    match stages items with
    | none => .error ⟨14, "Each element of the pipeline array must be an object"⟩
    | some pipeline =>
      match getField cmdObj "collation" with
      | none => .ok ⟨nss, pipeline, ⟨[]⟩, verbosity, ⟨[]⟩⟩
      | some (.obj fields) => .ok ⟨nss, pipeline, BSONObj.ofFields fields, verbosity, ⟨[]⟩⟩
      | some _ => .error ⟨14, "collation must be an object"⟩
  | _ => .error ⟨14, "pipeline must be an array"⟩

/-- Only the user `admin` may aggregate. -/
def checkAuthForAggregate (client : Client) (_nss : NamespaceString) (_cmdObj : BSONObj) :
    Status :=
  if client.user == "admin" then Status.OK else ⟨13, "not authorized"⟩

/-- The executor reports the number of stages and succeeds. -/
def runAggregate (_opCtx : OperationContext) (_nss : NamespaceString)
    (request : AggregationRequest) (_cmdObj : BSONObj) (result : BSONObjBuilder) :
    Except Status Status × BSONObjBuilder :=
  (.ok Status.OK, ⟨result.elements ++ [⟨"stages", .num request.getPipeline.length⟩]⟩)

/-- The sample collaborators. -/
def env : Collaborators where
  parseNsCollectionRequired := parseNsCollectionRequired
  parseFromBSON := parseFromBSON
  checkAuthForAggregate := checkAuthForAggregate
  runAggregate := runAggregate
  aggSupportsWriteConcern := fun cmd => cmd.hasField "writeConcern"
  appendStatusFields := fun result status =>
    ⟨result.elements ++ [⟨"ok", .num (if status.isOK then 1 else 0)⟩]⟩

/-- Server parameters under the legacy compatibility version. -/
def legacy : ServerGlobalParams := ⟨⟨Version.k32⟩⟩

/-- A client without the right to aggregate. -/
def guest : Client := ⟨"guest"⟩

/-- An operation of `guest`. -/
def guestOp : OperationContext := ⟨guest, 1⟩

/-- The namespace of the sample commands. -/
def testColl : NamespaceString := ⟨"test", "coll"⟩

/-- The stage `{$match: {a: 1}}`. -/
def matchStage : BSONObj := ⟨[⟨"$match", .obj [("a", .num 1)]⟩]⟩

/-- The stage `{$mergeCursors: {}}`. -/
def mergeStage : BSONObj := ⟨[⟨"$mergeCursors", .obj []⟩]⟩

/-- The collation `{locale: "en"}`. -/
def localeEn : BSONObj := ⟨[⟨"locale", .str "en"⟩]⟩

/-- The command `{aggregate: "coll", pipeline: [{$match: {a: 1}}], collation: {locale: "en"}}`. -/
def userCollationCmd : BSONObj :=
  ⟨[⟨"aggregate", .str "coll"⟩,
    ⟨"pipeline", .arr [.obj [("$match", .obj [("a", .num 1)])]]⟩,
    ⟨"collation", .obj [("locale", .str "en")]⟩]⟩

/-- The command `{aggregate: "coll", pipeline: [{$mergeCursors: {}}, {$match: {a: 1}}],
collation: {locale: "en"}}`. -/
def mergerCollationCmd : BSONObj :=
  ⟨[⟨"aggregate", .str "coll"⟩,
    ⟨"pipeline", .arr [.obj [("$mergeCursors", .obj [])], .obj [("$match", .obj [("a", .num 1)])]]⟩,
    ⟨"collation", .obj [("locale", .str "en")]⟩]⟩

/-- The command `{aggregate: "coll", pipeline: [{$match: {a: 1}}]}`. -/
def plainCmd : BSONObj :=
  ⟨[⟨"aggregate", .str "coll"⟩,
    ⟨"pipeline", .arr [.obj [("$match", .obj [("a", .num 1)])]]⟩]⟩

/-- The command `{aggregate: 1, pipeline: []}`, whose collection name is not a string. -/
def noCollectionCmd : BSONObj :=
  ⟨[⟨"aggregate", .num 1⟩, ⟨"pipeline", .arr []⟩]⟩

/-- The command `{aggregate: "coll", pipeline: 5}`, whose pipeline is not an array. -/
def badPipelineCmd : BSONObj :=
  ⟨[⟨"aggregate", .str "coll"⟩, ⟨"pipeline", .num 5⟩]⟩

/-- The request `userCollationCmd` parses to. -/
def userCollationRequest (verbosity : Option Verbosity) : AggregationRequest :=
  ⟨testColl, [matchStage], localeEn, verbosity, ⟨[]⟩⟩

/-- The request `mergerCollationCmd` parses to. -/
def mergerCollationRequest (verbosity : Option Verbosity) : AggregationRequest :=
  ⟨testColl, [mergeStage, matchStage], localeEn, verbosity, ⟨[]⟩⟩

/-- The request `plainCmd` parses to. -/
def plainRequest (verbosity : Option Verbosity) : AggregationRequest :=
  ⟨testColl, [matchStage], ⟨[]⟩, verbosity, ⟨[]⟩⟩

end Sample

end mongo

/-! ## Results -/

namespace mongo

/-! ### Working lemmas -/

lemma hasField_iff (o : BSONObj) (name : String) :
    o.hasField name = true ↔ ∃ e ∈ o.elements, e.fieldName = name := by
  simp [BSONObj.hasField]

lemma collationGuard_eq_ok_iff (serverGlobalParams : ServerGlobalParams)
    (request : AggregationRequest) :
    collationGuard serverGlobalParams request = .ok () ↔
      (request.getCollation.isEmpty = true ∨
        serverGlobalParams.featureCompatibility.version ≠ Version.k32 ∨
        isMergePipeline request.getPipeline = true) := by
  unfold collationGuard uassert
  split
  · rename_i h
    simp only [Bool.or_eq_true, bne_iff_ne, ne_eq] at h
    simp only [true_iff]
    tauto
  · rename_i h
    simp only [Bool.or_eq_true, bne_iff_ne, ne_eq] at h
    simp only [reduceCtorEq, false_iff]
    tauto

lemma collationGuard_eq_error_iff (serverGlobalParams : ServerGlobalParams)
    (request : AggregationRequest) (ex : Status) :
    collationGuard serverGlobalParams request = .error ex ↔
      (ex = ⟨ErrorCodes.InvalidOptions, collationMessage⟩ ∧
        request.getCollation.isEmpty = false ∧
        serverGlobalParams.featureCompatibility.version = Version.k32 ∧
        isMergePipeline request.getPipeline = false) := by
  unfold collationGuard uassert
  split
  · rename_i h
    simp only [Bool.or_eq_true, bne_iff_ne, ne_eq] at h
    simp only [reduceCtorEq, false_iff]
    intro hc
    rcases h with (h | h) | h
    · simp [h] at hc
    · exact h hc.2.2.1
    · simp [h] at hc
  · rename_i h
    simp only [Bool.or_eq_true, bne_iff_ne, ne_eq, not_or, not_not, Bool.not_eq_true] at h
    simp only [Except.error.injEq]
    constructor
    · intro hex
      exact ⟨hex.symm, h.1.1, h.1.2, h.2⟩
    · intro hex
      exact hex.1.symm

lemma runAggCommand_of_ns_error (env : Collaborators) (serverGlobalParams : ServerGlobalParams)
    (opCtx : OperationContext) (dbname : String) (cmdObj : BSONObj)
    (verbosity : Option Verbosity) (result : BSONObjBuilder) (ex : Status)
    (hns : env.parseNsCollectionRequired dbname cmdObj = .error ex) :
    _runAggCommand env serverGlobalParams opCtx dbname cmdObj verbosity result =
      (⟨.error ex, []⟩, result) := by
  simp [_runAggCommand, hns]

lemma runAggCommand_of_parse_error (env : Collaborators)
    (serverGlobalParams : ServerGlobalParams)
    (opCtx : OperationContext) (dbname : String) (cmdObj : BSONObj)
    (verbosity : Option Verbosity) (result : BSONObjBuilder) (nss : NamespaceString)
    (ex : Status)
    (hns : env.parseNsCollectionRequired dbname cmdObj = .ok nss)
    (hparse : env.parseFromBSON nss cmdObj verbosity = .error ex) :
    _runAggCommand env serverGlobalParams opCtx dbname cmdObj verbosity result =
      (⟨.error ex, []⟩, result) := by
  simp [_runAggCommand, hns, hparse, uassertStatusOK]

lemma runAggCommand_of_guard_error (env : Collaborators)
    (serverGlobalParams : ServerGlobalParams)
    (opCtx : OperationContext) (dbname : String) (cmdObj : BSONObj)
    (verbosity : Option Verbosity) (result : BSONObjBuilder) (nss : NamespaceString)
    (request : AggregationRequest) (ex : Status)
    (hns : env.parseNsCollectionRequired dbname cmdObj = .ok nss)
    (hparse : env.parseFromBSON nss cmdObj verbosity = .ok request)
    (hguard : collationGuard serverGlobalParams request = .error ex) :
    _runAggCommand env serverGlobalParams opCtx dbname cmdObj verbosity result =
      (⟨.error ex, []⟩, result) := by
  simp [_runAggCommand, hns, hparse, uassertStatusOK, hguard]

lemma runAggCommand_of_guard_ok (env : Collaborators)
    (serverGlobalParams : ServerGlobalParams)
    (opCtx : OperationContext) (dbname : String) (cmdObj : BSONObj)
    (verbosity : Option Verbosity) (result : BSONObjBuilder) (nss : NamespaceString)
    (request : AggregationRequest)
    (hns : env.parseNsCollectionRequired dbname cmdObj = .ok nss)
    (hparse : env.parseFromBSON nss cmdObj verbosity = .ok request)
    (hguard : collationGuard serverGlobalParams request = .ok ()) :
    _runAggCommand env serverGlobalParams opCtx dbname cmdObj verbosity result =
      (⟨(env.runAggregate opCtx nss request cmdObj result).1,
          [Event.runAggregate opCtx nss request cmdObj]⟩,
        (env.runAggregate opCtx nss request cmdObj result).2) := by
  simp [_runAggCommand, hns, hparse, uassertStatusOK, hguard]

lemma run_of_runAggCommand_error (env : Collaborators)
    (serverGlobalParams : ServerGlobalParams)
    (opCtx : OperationContext) (dbname : String) (cmdObj : BSONObj) (errmsg : String)
    (result out : BSONObjBuilder) (ex : Status) (trace : List Event)
    (h : _runAggCommand env serverGlobalParams opCtx dbname cmdObj none result =
      (⟨.error ex, trace⟩, out)) :
    run env serverGlobalParams opCtx dbname cmdObj errmsg result = (⟨.error ex, trace⟩, out) := by
  simp [run, h]

/-! ### The merge-pipeline detector -/

/-- C2: `isMergePipeline` is a total function on pipelines; on the empty pipeline it is
`false`, and on a non-empty pipeline it is `true` exactly when the first stage document
contains a field named `$mergeCursors`. -/
theorem isMergePipeline_spec :
    isMergePipeline [] = false ∧
    ∀ (first : BSONObj) (rest : List BSONObj),
      (isMergePipeline (first :: rest) = true ↔
        ∃ e ∈ first.elements, e.fieldName = "$mergeCursors") := by
  refine ⟨rfl, ?_⟩
  intro first rest
  simp [isMergePipeline, hasField_iff]

/-- C9: any two pipelines with the same first stage get the same `isMergePipeline` result,
whichever that result is; and a pipeline whose first stage has no `$mergeCursors` field is
not a merge pipeline, whatever its later stages contain. -/
theorem isMergePipeline_first_stage_only (first : BSONObj) (rest rest' : List BSONObj) :
    isMergePipeline (first :: rest) = isMergePipeline (first :: rest') ∧
    ((∀ e ∈ first.elements, e.fieldName ≠ "$mergeCursors") →
      isMergePipeline (first :: rest) = false) := by
  refine ⟨rfl, ?_⟩
  intro hfirst
  cases h : isMergePipeline (first :: rest)
  · rfl
  · obtain ⟨e, he, hname⟩ := (hasField_iff first "$mergeCursors").1 h
    exact absurd hname (hfirst e he)

/-- Witness for C9: with first stage `{$match: ..}` and a later stage `{$mergeCursors: ..}`
the pipeline is not a merge pipeline and agrees with the one-stage pipeline; with first
stage `{$mergeCursors: ..}` the result is `true` with or without later stages. -/
theorem isMergePipeline_first_stage_only_witness :
    Sample.mergeStage.hasField "$mergeCursors" = true ∧
    isMergePipeline [Sample.matchStage, Sample.mergeStage] = false ∧
    isMergePipeline [Sample.matchStage, Sample.mergeStage] =
      isMergePipeline [Sample.matchStage] ∧
    isMergePipeline [Sample.mergeStage, Sample.matchStage] = true ∧
    isMergePipeline [Sample.mergeStage, Sample.matchStage] =
      isMergePipeline [Sample.mergeStage] :=
  ⟨by decide,
    (isMergePipeline_first_stage_only Sample.matchStage [Sample.mergeStage] []).2
      (by decide),
    (isMergePipeline_first_stage_only Sample.matchStage [Sample.mergeStage] []).1,
    by decide,
    (isMergePipeline_first_stage_only Sample.mergeStage [Sample.matchStage] []).1⟩

/-! ### The collation guard -/

/-- C1: for every parsed request and every compatibility version, the collation guard of
`_runAggCommand` fails, with `InvalidOptions` and the fixed message, exactly when the
collation is non-empty, the version is `k32` and the pipeline is not a merge pipeline;
in every other case it passes. -/
theorem collationGuard_fails_iff (serverGlobalParams : ServerGlobalParams)
    (request : AggregationRequest) :
    (collationGuard serverGlobalParams request =
        .error ⟨ErrorCodes.InvalidOptions, collationMessage⟩ ↔
      (request.getCollation.isEmpty = false ∧
        serverGlobalParams.featureCompatibility.version = Version.k32 ∧
        isMergePipeline request.getPipeline = false)) ∧
    (collationGuard serverGlobalParams request = .ok () ↔
      ¬ (request.getCollation.isEmpty = false ∧
        serverGlobalParams.featureCompatibility.version = Version.k32 ∧
        isMergePipeline request.getPipeline = false)) ∧
    (∀ ex, collationGuard serverGlobalParams request = .error ex →
      ex.code = ErrorCodes.InvalidOptions) := by
  refine ⟨?_, ?_, ?_⟩
  · rw [collationGuard_eq_error_iff]
    simp
  · rw [collationGuard_eq_ok_iff]
    cases request.getCollation.isEmpty <;> cases isMergePipeline request.getPipeline <;>
      simp
  · intro ex hex
    rw [collationGuard_eq_error_iff] at hex
    rw [hex.1]

/-! ### The dispatcher -/

/-- C4: when the command parses to a request with a non-empty collation and a pipeline
that is not a merge pipeline, and the compatibility version is `k32`, then `run` and
`explain` throw `InvalidOptions` with the fixed message, leave the builder as it was and
make no call to `runAggregate`. -/
theorem legacy_collation_rejected (env : Collaborators)
    (serverGlobalParams : ServerGlobalParams)
    (opCtx : OperationContext) (dbname : String) (cmdObj : BSONObj)
    (verbosity : Option Verbosity) (result : BSONObjBuilder) (nss : NamespaceString)
    (request : AggregationRequest)
    (hns : env.parseNsCollectionRequired dbname cmdObj = .ok nss)
    (hparse : env.parseFromBSON nss cmdObj verbosity = .ok request)
    (hcollation : request.getCollation.isEmpty = false)
    (hmerge : isMergePipeline request.getPipeline = false)
    (hversion : serverGlobalParams.featureCompatibility.version = Version.k32) :
    (verbosity = none → ∀ errmsg : String,
      run env serverGlobalParams opCtx dbname cmdObj errmsg result =
        (⟨.error ⟨ErrorCodes.InvalidOptions, collationMessage⟩, []⟩, result)) ∧
    (∀ v : Verbosity, verbosity = some v →
      explain env serverGlobalParams opCtx dbname cmdObj v result =
        (⟨.error ⟨ErrorCodes.InvalidOptions, collationMessage⟩, []⟩, result)) := by
  have hguard : collationGuard serverGlobalParams request =
      .error ⟨ErrorCodes.InvalidOptions, collationMessage⟩ :=
    (collationGuard_eq_error_iff _ _ _).2 ⟨rfl, hcollation, hversion, hmerge⟩
  have hagg := runAggCommand_of_guard_error env serverGlobalParams opCtx dbname cmdObj
    verbosity result nss request _ hns hparse hguard
  constructor
  · intro hv errmsg
    subst hv
    exact run_of_runAggCommand_error _ _ _ _ _ _ _ _ _ _ hagg
  · intro v hv
    subst hv
    exact hagg

/-- Witness for C4: `{aggregate: "coll", pipeline: [{$match: {a: 1}}],
collation: {locale: "en"}}` under the legacy version, through `run` and through `explain`. -/
theorem legacy_collation_rejected_witness :
    run Sample.env Sample.legacy Sample.guestOp "test" Sample.userCollationCmd "" ⟨[]⟩ =
      (⟨.error ⟨ErrorCodes.InvalidOptions, collationMessage⟩, []⟩, ⟨[]⟩) ∧
    explain Sample.env Sample.legacy Sample.guestOp "test" Sample.userCollationCmd
        Verbosity.kQueryPlanner ⟨[]⟩ =
      (⟨.error ⟨ErrorCodes.InvalidOptions, collationMessage⟩, []⟩, ⟨[]⟩) :=
  ⟨(legacy_collation_rejected Sample.env Sample.legacy Sample.guestOp "test"
      Sample.userCollationCmd none ⟨[]⟩ Sample.testColl (Sample.userCollationRequest none)
      rfl rfl rfl rfl rfl).1 rfl "",
    (legacy_collation_rejected Sample.env Sample.legacy Sample.guestOp "test"
      Sample.userCollationCmd (some Verbosity.kQueryPlanner) ⟨[]⟩ Sample.testColl
      (Sample.userCollationRequest (some Verbosity.kQueryPlanner))
      rfl rfl rfl rfl rfl).2 Verbosity.kQueryPlanner rfl⟩

/-- C5: when the command parses to a request with a non-empty collation whose first stage
contains `$mergeCursors`, and the compatibility version is `k32`, the guard passes and
`runAggregate` is called exactly once, with the namespace taken from the command, the
request as parsed and the raw command; `explain` ends as the executor ends. -/
theorem legacy_merge_pipeline_reaches_executor (env : Collaborators)
    (serverGlobalParams : ServerGlobalParams)
    (opCtx : OperationContext) (dbname : String) (cmdObj : BSONObj)
    (verbosity : Option Verbosity) (result : BSONObjBuilder) (nss : NamespaceString)
    (request : AggregationRequest) (first : BSONObj) (rest : List BSONObj)
    (hns : env.parseNsCollectionRequired dbname cmdObj = .ok nss)
    (hparse : env.parseFromBSON nss cmdObj verbosity = .ok request)
    (_hcollation : request.getCollation.isEmpty = false)
    (hpipeline : request.getPipeline = first :: rest)
    (hfirst : ∃ e ∈ first.elements, e.fieldName = "$mergeCursors")
    (_hversion : serverGlobalParams.featureCompatibility.version = Version.k32) :
    collationGuard serverGlobalParams request = .ok () ∧
    (verbosity = none → ∀ errmsg : String,
      (run env serverGlobalParams opCtx dbname cmdObj errmsg result).1.trace =
        [Event.runAggregate opCtx nss request cmdObj]) ∧
    (∀ v : Verbosity, verbosity = some v →
      explain env serverGlobalParams opCtx dbname cmdObj v result =
        (⟨(env.runAggregate opCtx nss request cmdObj result).1,
            [Event.runAggregate opCtx nss request cmdObj]⟩,
          (env.runAggregate opCtx nss request cmdObj result).2)) := by
  have hmerge : isMergePipeline request.getPipeline = true := by
    rw [hpipeline]
    exact (hasField_iff first "$mergeCursors").2 hfirst
  have hguard : collationGuard serverGlobalParams request = .ok () :=
    (collationGuard_eq_ok_iff _ _).2 (Or.inr (Or.inr hmerge))
  have hagg := runAggCommand_of_guard_ok env serverGlobalParams opCtx dbname cmdObj
    verbosity result nss request hns hparse hguard
  refine ⟨hguard, ?_, ?_⟩
  · intro hv errmsg
    subst hv
    simp only [run, hagg]
    cases (env.runAggregate opCtx nss request cmdObj result).1 <;> rfl
  · intro v hv
    subst hv
    exact hagg

/-- Witness for C5: `{aggregate: "coll", pipeline: [{$mergeCursors: {}}, {$match: {a: 1}}],
collation: {locale: "en"}}` under the legacy version. -/
theorem legacy_merge_pipeline_reaches_executor_witness :
    (run Sample.env Sample.legacy Sample.guestOp "test" Sample.mergerCollationCmd ""
        ⟨[]⟩).1.trace =
      [Event.runAggregate Sample.guestOp Sample.testColl (Sample.mergerCollationRequest none)
        Sample.mergerCollationCmd] :=
  (legacy_merge_pipeline_reaches_executor Sample.env Sample.legacy Sample.guestOp "test"
    Sample.mergerCollationCmd none ⟨[]⟩ Sample.testColl (Sample.mergerCollationRequest none)
    Sample.mergeStage [Sample.matchStage] rfl rfl rfl rfl
    ⟨⟨"$mergeCursors", .obj []⟩, by simp [Sample.mergeStage], rfl⟩ rfl).2.1 rfl ""

/-- C6: when namespace extraction or request parsing fails, `run` and `explain` throw that
very parse error, whatever the compatibility version (so whatever the collation guard
would have said), leave the builder as it was and make no call to `runAggregate`. -/
theorem parse_failure_terminal (env : Collaborators)
    (opCtx : OperationContext) (dbname : String) (cmdObj : BSONObj)
    (verbosity : Option Verbosity) (result : BSONObjBuilder) (ex : Status)
    (hfail : env.parseNsCollectionRequired dbname cmdObj = .error ex ∨
      ∃ nss, env.parseNsCollectionRequired dbname cmdObj = .ok nss ∧
        env.parseFromBSON nss cmdObj verbosity = .error ex) :
    ∀ serverGlobalParams : ServerGlobalParams,
      (verbosity = none → ∀ errmsg : String,
        run env serverGlobalParams opCtx dbname cmdObj errmsg result =
          (⟨.error ex, []⟩, result)) ∧
      (∀ v : Verbosity, verbosity = some v →
        explain env serverGlobalParams opCtx dbname cmdObj v result =
          (⟨.error ex, []⟩, result)) := by
  intro serverGlobalParams
  have hagg : _runAggCommand env serverGlobalParams opCtx dbname cmdObj verbosity result =
      (⟨.error ex, []⟩, result) := by
    rcases hfail with hns | ⟨nss, hns, hparse⟩
    · exact runAggCommand_of_ns_error _ _ _ _ _ _ _ _ hns
    · exact runAggCommand_of_parse_error _ _ _ _ _ _ _ _ _ hns hparse
  constructor
  · intro hv errmsg
    subst hv
    exact run_of_runAggCommand_error _ _ _ _ _ _ _ _ _ _ hagg
  · intro v hv
    subst hv
    exact hagg

/-- Witness for C6: `{aggregate: 1, pipeline: []}` has no collection name and fails in
`run`; `{aggregate: "coll", pipeline: 5}` does not parse and fails in `explain`; both
under the legacy and under the current version. -/
theorem parse_failure_terminal_witness :
    (∀ serverGlobalParams : ServerGlobalParams,
      run Sample.env serverGlobalParams Sample.guestOp "test" Sample.noCollectionCmd "" ⟨[]⟩ =
        (⟨.error ⟨2, "collection name has invalid type"⟩, []⟩, ⟨[]⟩)) ∧
    (∀ serverGlobalParams : ServerGlobalParams,
      explain Sample.env serverGlobalParams Sample.guestOp "test" Sample.badPipelineCmd
          Verbosity.kExecStats ⟨[]⟩ =
        (⟨.error ⟨14, "pipeline must be an array"⟩, []⟩, ⟨[]⟩)) :=
  ⟨fun serverGlobalParams =>
      (parse_failure_terminal Sample.env Sample.guestOp "test" Sample.noCollectionCmd none
        ⟨[]⟩ ⟨2, "collection name has invalid type"⟩ (Or.inl rfl) serverGlobalParams).1 rfl "",
    fun serverGlobalParams =>
      (parse_failure_terminal Sample.env Sample.guestOp "test" Sample.badPipelineCmd
        (some Verbosity.kExecStats) ⟨[]⟩ ⟨14, "pipeline must be an array"⟩
        (Or.inr ⟨Sample.testColl, rfl, rfl⟩) serverGlobalParams).2 Verbosity.kExecStats rfl⟩

/-- C7: when namespace extraction, request parsing and the collation guard all succeed,
`explain` ends exactly as `runAggregate` ends (the status it returns, or the exception it
throws), and `run` reports success exactly when `runAggregate` returns an OK status. -/
theorem executor_result_propagated (env : Collaborators)
    (serverGlobalParams : ServerGlobalParams)
    (opCtx : OperationContext) (dbname : String) (cmdObj : BSONObj)
    (verbosity : Option Verbosity) (result : BSONObjBuilder) (nss : NamespaceString)
    (request : AggregationRequest)
    (hns : env.parseNsCollectionRequired dbname cmdObj = .ok nss)
    (hparse : env.parseFromBSON nss cmdObj verbosity = .ok request)
    (hguard : collationGuard serverGlobalParams request = .ok ()) :
    (∀ v : Verbosity, verbosity = some v →
      (explain env serverGlobalParams opCtx dbname cmdObj v result).1.outcome =
        (env.runAggregate opCtx nss request cmdObj result).1) ∧
    (verbosity = none → ∀ errmsg : String,
      (run env serverGlobalParams opCtx dbname cmdObj errmsg result).1.outcome =
          (env.runAggregate opCtx nss request cmdObj result).1.map Status.isOK ∧
      ((run env serverGlobalParams opCtx dbname cmdObj errmsg result).1.outcome = .ok true ↔
        ∃ status, (env.runAggregate opCtx nss request cmdObj result).1 = .ok status ∧
          status.isOK = true)) := by
  have hagg := runAggCommand_of_guard_ok env serverGlobalParams opCtx dbname cmdObj
    verbosity result nss request hns hparse hguard
  constructor
  · intro v hv
    subst hv
    simp only [explain, hagg]
  · intro hv errmsg
    subst hv
    simp only [run, hagg]
    cases (env.runAggregate opCtx nss request cmdObj result).1 with
    | error e => simp [Except.map]
    | ok status => simp [Except.map, appendCommandStatus]

/-- Witness for C7: `{aggregate: "coll", pipeline: [{$match: {a: 1}}]}` under the legacy
version; the sample executor returns an OK status, `explain` returns it and `run`
reports success. -/
theorem executor_result_propagated_witness :
    (explain Sample.env Sample.legacy Sample.guestOp "test" Sample.plainCmd
        Verbosity.kQueryPlanner ⟨[]⟩).1.outcome = .ok Status.OK ∧
    (run Sample.env Sample.legacy Sample.guestOp "test" Sample.plainCmd "" ⟨[]⟩).1.outcome =
      .ok true :=
  ⟨(executor_result_propagated Sample.env Sample.legacy Sample.guestOp "test" Sample.plainCmd
      (some Verbosity.kQueryPlanner) ⟨[]⟩ Sample.testColl
      (Sample.plainRequest (some Verbosity.kQueryPlanner)) rfl rfl rfl).1
      Verbosity.kQueryPlanner rfl,
    ((executor_result_propagated Sample.env Sample.legacy Sample.guestOp "test" Sample.plainCmd
      none ⟨[]⟩ Sample.testColl (Sample.plainRequest none) rfl rfl rfl).2 rfl "").1⟩

/-! ### Authorization -/

/-- C8: `checkAuthForCommand` throws the parse failure, without consulting
`checkAuthForAggregate`, when the namespace cannot be extracted; otherwise it consults
`checkAuthForAggregate` once, on the extracted namespace and the raw command, and returns
exactly the status obtained. -/
theorem checkAuthForCommand_passthrough (env : Collaborators) (client : Client)
    (dbname : String) (cmdObj : BSONObj) :
    (∀ ex, env.parseNsCollectionRequired dbname cmdObj = .error ex →
      checkAuthForCommand env client dbname cmdObj = ⟨.error ex, []⟩) ∧
    (∀ nss, env.parseNsCollectionRequired dbname cmdObj = .ok nss →
      checkAuthForCommand env client dbname cmdObj =
        ⟨.ok (env.checkAuthForAggregate client nss cmdObj),
          [Event.checkAuthForAggregate client nss cmdObj]⟩) := by
  constructor
  · intro ex hns
    simp [checkAuthForCommand, hns]
  · intro nss hns
    simp [checkAuthForCommand, hns]

/-- Witness for C8: without a collection name the check is not consulted; with one,
`guest` gets the policy's refusal. -/
theorem checkAuthForCommand_passthrough_witness :
    checkAuthForCommand Sample.env Sample.guest "test" Sample.noCollectionCmd =
      ⟨.error ⟨2, "collection name has invalid type"⟩, []⟩ ∧
    checkAuthForCommand Sample.env Sample.guest "test" Sample.plainCmd =
      ⟨.ok ⟨13, "not authorized"⟩,
        [Event.checkAuthForAggregate Sample.guest Sample.testColl Sample.plainCmd]⟩ :=
  ⟨(checkAuthForCommand_passthrough Sample.env Sample.guest "test" Sample.noCollectionCmd).1
      _ rfl,
    (checkAuthForCommand_passthrough Sample.env Sample.guest "test" Sample.plainCmd).2
      Sample.testColl rfl⟩

/-- C3, as stated, fails: `guest` is refused by `checkAuthForAggregate` on `test.coll`,
yet `run` and `explain` on `{aggregate: "coll", pipeline: [{$match: {a: 1}}]}` succeed and
each calls `runAggregate` once. -/
theorem unauthorized_run_reaches_executor :
    Sample.guestOp.client = Sample.guest ∧
    Sample.env.parseNsCollectionRequired "test" Sample.plainCmd = .ok Sample.testColl ∧
    (Sample.env.checkAuthForAggregate Sample.guest Sample.testColl Sample.plainCmd).isOK =
      false ∧
    (run Sample.env Sample.legacy Sample.guestOp "test" Sample.plainCmd "" ⟨[]⟩).1 =
      ⟨.ok true,
        [Event.runAggregate Sample.guestOp Sample.testColl (Sample.plainRequest none)
          Sample.plainCmd]⟩ ∧
    (explain Sample.env Sample.legacy Sample.guestOp "test" Sample.plainCmd
        Verbosity.kQueryPlanner ⟨[]⟩).1 =
      ⟨.ok Status.OK,
        [Event.runAggregate Sample.guestOp Sample.testColl
          (Sample.plainRequest (some Verbosity.kQueryPlanner)) Sample.plainCmd]⟩ :=
  ⟨rfl, rfl, rfl, rfl, rfl⟩

/-- C3, amended: when `checkAuthForAggregate` returns a non-OK status for the command's
namespace, `checkAuthForCommand` returns exactly that non-OK status and makes no call to
`runAggregate`; `run` and `explain` never consult the authorization check, their result
and their executor calls being the same under every authorization policy. -/
theorem unauthorized_refused_by_checkAuthForCommand (env : Collaborators) (client : Client)
    (dbname : String) (cmdObj : BSONObj) (nss : NamespaceString)
    (hns : env.parseNsCollectionRequired dbname cmdObj = .ok nss)
    (hdenied : (env.checkAuthForAggregate client nss cmdObj).isOK = false) :
    (∃ status, (checkAuthForCommand env client dbname cmdObj).outcome = .ok status ∧
      status = env.checkAuthForAggregate client nss cmdObj ∧ status.isOK = false) ∧
    (∀ ev ∈ (checkAuthForCommand env client dbname cmdObj).trace,
      ev.isRunAggregate = false) ∧
    (∀ (policy : Client → NamespaceString → BSONObj → Status)
        (serverGlobalParams : ServerGlobalParams) (opCtx : OperationContext)
        (errmsg : String) (result : BSONObjBuilder) (v : Verbosity),
      run { env with checkAuthForAggregate := policy } serverGlobalParams opCtx dbname
          cmdObj errmsg result =
        run env serverGlobalParams opCtx dbname cmdObj errmsg result ∧
      explain { env with checkAuthForAggregate := policy } serverGlobalParams opCtx dbname
          cmdObj v result =
        explain env serverGlobalParams opCtx dbname cmdObj v result) := by
  refine ⟨⟨_, ?_, rfl, hdenied⟩, ?_, ?_⟩
  · simp [checkAuthForCommand, hns]
  · intro ev hev
    simp only [checkAuthForCommand, hns, List.mem_singleton] at hev
    rw [hev]
    rfl
  · intro policy serverGlobalParams opCtx errmsg result v
    exact ⟨rfl, rfl⟩

/-- Witness for the amended C3: `guest` asking for `test.coll` is refused by
`checkAuthForCommand` with the policy's status, and no executor call is made. -/
theorem unauthorized_refused_by_checkAuthForCommand_witness :
    (∃ status, (checkAuthForCommand Sample.env Sample.guest "test" Sample.plainCmd).outcome =
        .ok status ∧
      status = Sample.env.checkAuthForAggregate Sample.guest Sample.testColl Sample.plainCmd ∧
      status.isOK = false) ∧
    (∀ ev ∈ (checkAuthForCommand Sample.env Sample.guest "test" Sample.plainCmd).trace,
      ev.isRunAggregate = false) :=
  ⟨(unauthorized_refused_by_checkAuthForCommand Sample.env Sample.guest "test"
      Sample.plainCmd Sample.testColl rfl rfl).1,
    (unauthorized_refused_by_checkAuthForCommand Sample.env Sample.guest "test"
      Sample.plainCmd Sample.testColl rfl rfl).2.1⟩

/-! ### Capability flags -/

/-- C10: the declared capability flags are constant: `slaveOk` is `false`,
`slaveOverrideOk` is `true`, `supportsReadConcern` is `true`, `getReadWriteType` is
`kRead`, and `supportsWriteConcern` answers what `Pipeline::aggSupportsWriteConcern`
answers on every command document. -/
theorem capability_flags (env : Collaborators) :
    slaveOk = false ∧ slaveOverrideOk = true ∧ supportsReadConcern = true ∧
    getReadWriteType = ReadWriteType.kRead ∧
    ∀ cmd : BSONObj, supportsWriteConcern env cmd = env.aggSupportsWriteConcern cmd :=
  ⟨rfl, rfl, rfl, rfl, fun _ => rfl⟩

end mongo
